import Mathlib

/-!
Verification development for the `unstructured-analytics` research harness.

The Python sources (`data_loader.py`, `csv_to_english.py`, `experiment.py`,
`web_app.py`) are shallowly embedded below.  Conventions used throughout:

* Numeric cell values coming out of `pandas.read_csv` are `numpy.float64`
  scalars.  They are modelled by `PyFloat`: either an exact rational
  (`Frac`, an unreduced integer fraction with a positive denominator) or
  one of the IEEE special values `inf`, `-inf`, `nan`.  NumPy scalar
  arithmetic does not raise on division by zero; it produces these special
  values, which Python's fixed-point formatting renders as "inf", "-inf"
  and "nan".  The binary rounding of IEEE doubles is approximated by exact
  rational arithmetic with round-half-even at format time; no claim below
  depends on binary-float rounding error.
* Python `str.join` is embedded as `pyJoin`, f-string interpolation as
  explicit string concatenation.
* Fallible Python code (raised exceptions) is embedded with `Except String`;
  the error string records the exception class.
* Wall-clock quantities (latency, time-to-first-token) are not modelled;
  no claim below is about their numeric values.
-/

/-- Unreduced rational number: numerator over a (positive, by construction
of every operation below) natural denominator.  Stands for the exact value
of a `numpy.float64` that is not one of the IEEE special values. -/
structure Frac where
  n : ℤ
  d : ℕ
deriving DecidableEq, Repr

def Frac.ofInt (i : ℤ) : Frac := ⟨i, 1⟩

def Frac.sub (a b : Frac) : Frac := ⟨a.n * b.d - b.n * a.d, a.d * b.d⟩

def Frac.add (a b : Frac) : Frac := ⟨a.n * b.d + b.n * a.d, a.d * b.d⟩

def Frac.mul (a b : Frac) : Frac := ⟨a.n * b.n, a.d * b.d⟩

def Frac.div (a b : Frac) : Frac :=
  if b.n < 0 then ⟨-(a.n * (b.d : ℤ)), a.d * b.n.natAbs⟩ else ⟨a.n * b.d, a.d * b.n.natAbs⟩

def Frac.isZero (a : Frac) : Bool := a.n = 0

def Frac.isPos (a : Frac) : Bool := 0 < a.n

def Frac.isNeg (a : Frac) : Bool := a.n < 0

/-- a ≤ b as rationals (denominators are positive). -/
def Frac.leB (a b : Frac) : Bool := a.n * b.d ≤ b.n * a.d

/-- Round `q * 10^p` to the nearest integer, ties to even — the rounding
used by Python's fixed-point `format`. -/
def roundHalfEvenScaled (q : Frac) (p : Nat) : ℤ :=
  let n : ℤ := q.n * (10 : ℤ) ^ p
  let den : ℤ := (q.d : ℤ)
  let f : ℤ := Int.fdiv n den
  let rem : ℤ := n - f * den
  if 2 * rem < den then f
  else if den < 2 * rem then f + 1
  else if f % 2 = 0 then f else f + 1

/-- Insert a comma after every group of three characters, the input being
the reversed digit string of the integer part (Python's `,` format flag). -/
def groupThrees : List Char → List Char
  | a :: b :: c :: d :: rest => a :: b :: c :: ',' :: groupThrees (d :: rest)
  | l => l

def padLeftZeros (s : String) (p : Nat) : String :=
  String.mk (List.replicate (p - s.length) '0') ++ s

/-- Python `format(q, '.pf')` (and with `commas`, `format(q, ',.pf')`) on a
finite float value modelled exactly. -/
def Frac.format (q : Frac) (p : Nat) (commas : Bool) : String :=
  let n := roundHalfEvenScaled q p
  let sign := if n < 0 then "-" else ""
  let m := n.natAbs
  let ip := m / 10 ^ p
  let fp := m % 10 ^ p
  let ipStr :=
    if commas then String.mk (groupThrees (toString ip).data.reverse).reverse
    else toString ip
  if p = 0 then sign ++ ipStr else sign ++ ipStr ++ "." ++ padLeftZeros (toString fp) p

/-- A `numpy.float64` scalar: a finite exact value or an IEEE special
value.  NumPy arithmetic on these never raises: division by zero yields
`inf`, `-inf` or `nan` (with a RuntimeWarning, which is not an exception). -/
inductive PyFloat
  | finite (q : Frac)
  | inf
  | neginf
  | nan
deriving DecidableEq, Repr

/-- Python fixed-point formatting of a float; special values print as
`inf`, `-inf`, `nan` under `:.pf` and `:,.pf` alike. -/
def PyFloat.format : PyFloat → Nat → Bool → String
  | .finite q, p, commas => q.format p commas
  | .inf, _, _ => "inf"
  | .neginf, _, _ => "-inf"
  | .nan, _, _ => "nan"

def PyFloat.sub : PyFloat → PyFloat → PyFloat
  | .nan, _ => .nan
  | _, .nan => .nan
  | .finite a, .finite b => .finite (a.sub b)
  | .finite _, .inf => .neginf
  | .finite _, .neginf => .inf
  | .inf, .finite _ => .inf
  | .neginf, .finite _ => .neginf
  | .inf, .inf => .nan
  | .inf, .neginf => .inf
  | .neginf, .inf => .neginf
  | .neginf, .neginf => .nan

def PyFloat.add : PyFloat → PyFloat → PyFloat
  | .nan, _ => .nan
  | _, .nan => .nan
  | .finite a, .finite b => .finite (a.add b)
  | .finite _, .inf => .inf
  | .finite _, .neginf => .neginf
  | .inf, .finite _ => .inf
  | .neginf, .finite _ => .neginf
  | .inf, .inf => .inf
  | .inf, .neginf => .nan
  | .neginf, .inf => .nan
  | .neginf, .neginf => .neginf

def PyFloat.mul : PyFloat → PyFloat → PyFloat
  | .nan, _ => .nan
  | _, .nan => .nan
  | .finite a, .finite b => .finite (a.mul b)
  | .finite a, .inf => if a.isZero then .nan else if a.isPos then .inf else .neginf
  | .finite a, .neginf => if a.isZero then .nan else if a.isPos then .neginf else .inf
  | .inf, .finite b => if b.isZero then .nan else if b.isPos then .inf else .neginf
  | .neginf, .finite b => if b.isZero then .nan else if b.isPos then .neginf else .inf
  | .inf, .inf => .inf
  | .inf, .neginf => .neginf
  | .neginf, .inf => .neginf
  | .neginf, .neginf => .inf

/-- NumPy float division.  The crucial clause: a finite value divided by
(positive) zero yields `inf` / `-inf` / `nan` by the sign of the
numerator — it does NOT raise `ZeroDivisionError` (that is the behaviour
of plain Python floats, not of the `numpy.float64` scalars that pandas
rows contain). -/
def PyFloat.div : PyFloat → PyFloat → PyFloat
  | .nan, _ => .nan
  | _, .nan => .nan
  | .finite a, .finite b =>
    if b.isZero then (if a.isPos then .inf else if a.isZero then .nan else .neginf)
    else .finite (a.div b)
  | .finite _, .inf => .finite (Frac.ofInt 0)
  | .finite _, .neginf => .finite (Frac.ofInt 0)
  | .inf, .finite b => if b.isNeg then .neginf else .inf
  | .neginf, .finite b => if b.isNeg then .inf else .neginf
  | .inf, .inf => .nan
  | .inf, .neginf => .nan
  | .neginf, .inf => .nan
  | .neginf, .neginf => .nan

/-- Python `x > 0` on a float. -/
def PyFloat.gtZero : PyFloat → Bool
  | .finite q => q.isPos
  | .inf => true
  | .neginf => false
  | .nan => false

/-- Comparator used for sorting float values descending, `nan` last —
approximates pandas `sort_values(ascending=False)` which places NaN last. -/
def PyFloat.geB : PyFloat → PyFloat → Bool
  | _, .nan => true
  | .nan, _ => false
  | .inf, _ => true
  | _, .inf => false
  | .finite a, .finite b => b.leB a
  | .finite _, .neginf => true
  | .neginf, .neginf => true
  | .neginf, .finite _ => false

/-- pandas `Series.sum()` over a float column (empty sum is `0.0`). -/
def pyFloatSum (l : List PyFloat) : PyFloat := l.foldl PyFloat.add (.finite (Frac.ofInt 0))

/-- Python `sep.join(parts)`. -/
def pyJoin (sep : String) : List String → String
  | [] => ""
  | [x] => x
  | x :: y :: rest => x ++ sep ++ pyJoin sep (y :: rest)

/-- Concatenation of a list of strings (Python `''.join` / repeated `+=`). -/
def strConcat : List String → String
  | [] => ""
  | x :: rest => x ++ strConcat rest

def listStartsWith : List Char → List Char → Bool
  | [], _ => true
  | _ :: _, [] => false
  | a :: as, b :: bs => a == b && listStartsWith as bs

def listHasSub (pat : List Char) : List Char → Bool
  | [] => listStartsWith pat []
  | l@(_ :: rest) => listStartsWith pat l || listHasSub pat rest

/-- Python `pat in s` on strings (substring containment). -/
def strContains (s pat : String) : Bool := listHasSub pat.data s.data

/-- Truthiness of an optional Python string: `None` and `""` are falsy. -/
def optStrTruthy : Option String → Bool
  | some s => !s.isEmpty
  | none => false

/-!
Embedding of `src/csv_to_english.py`.

Rows are typed records matching the fixed CSV schemas.  String-typed cells
(identifiers, names, dates) are `String`; money/quantity cells are
`PyFloat` / `ℤ`.  `reliability_rating` is interpolated via Python `str()`
(shortest float repr), which is modelled by carrying the printed form.
`pandas` row lookups `df[df[key] == v].iloc[0]` are first-match lookups
that raise `IndexError` when no row matches (`headOrIndexError`).
-/

structure CustomerRow where
  customer_id : String
  first_name : String
  last_name : String
  customer_segment : String
  join_date : String
  city : String
  state : String
  country : String
  email : String
deriving DecidableEq, Repr

structure ProductRow where
  product_id : String
  product_name : String
  subcategory : String
  category : String
  brand : String
  supplier_id : String
  unit_price : PyFloat
  cost_price : PyFloat
deriving DecidableEq, Repr

structure SupplierRow where
  supplier_id : String
  supplier_name : String
  country : String
  contact_email : String
  lead_time_days : ℤ
  reliability_rating : String
deriving DecidableEq, Repr

structure OrderRow where
  order_id : String
  customer_id : String
  order_date : String
  shipping_method : String
  shipping_address_city : String
  payment_method : String
  order_status : String
  discount_applied : PyFloat
deriving DecidableEq, Repr

structure OrderItemRow where
  order_id : String
  product_id : String
  quantity : ℤ
  unit_price_at_sale : PyFloat
  total_price : PyFloat
deriving DecidableEq, Repr

/-- The five entity tables, present by construction (models the state in
which `load_all_tables()` found every backing file). -/
structure Tables where
  customers : List CustomerRow
  products : List ProductRow
  suppliers : List SupplierRow
  orders : List OrderRow
  order_items : List OrderItemRow
deriving DecidableEq, Repr

/-- pandas `.iloc[0]`: the first row of a filtered frame, raising
`IndexError` when the frame is empty. -/
def headOrIndexError {α : Type} (l : List α) : Except String α :=
  match l.head? with
  | some a => Except.ok a
  | none => Except.error "IndexError: single positional indexer is out-of-bounds"

def convert_customer_to_english (row : CustomerRow) : String :=
  row.first_name ++ " " ++ row.last_name ++ " (ID: " ++ row.customer_id ++ ") is a "
    ++ row.customer_segment ++ " customer who joined on " ++ row.join_date
    ++ ". They are located in " ++ row.city ++ ", " ++ row.state ++ ", " ++ row.country
    ++ " and can be reached at " ++ row.email ++ "."

/-- The product f-string template with the two computed slots (the
formatted margin and margin percentage) explicit. -/
def product_sentence (row : ProductRow) (margin_str pct_str : String) : String :=
  "The product \x27" ++ row.product_name ++ "\x27 (ID: " ++ row.product_id ++ ") is a "
    ++ row.subcategory ++ " item in the " ++ row.category ++ " category, manufactured by "
    ++ row.brand ++ ". It is priced at $" ++ row.unit_price.format 2 false
    ++ " with a cost of $" ++ row.cost_price.format 2 false
    ++ ", yielding a margin of $" ++ margin_str
    ++ " (" ++ pct_str
    ++ "%). This product is supplied by " ++ row.supplier_id ++ "."

/-- Product rendering.  `margin_pct = (margin / cost_price) * 100` is NumPy
float arithmetic: with `cost_price = 0` it evaluates to an IEEE special
value and the sentence is still produced (no exception is raised). -/
def convert_product_to_english (row : ProductRow) : String :=
  let margin := row.unit_price.sub row.cost_price
  let margin_pct := (margin.div row.cost_price).mul (.finite (Frac.ofInt 100))
  product_sentence row (margin.format 2 false) (margin_pct.format 1 false)

def convert_supplier_to_english (row : SupplierRow) : String :=
  row.supplier_name ++ " (ID: " ++ row.supplier_id ++ ") is a supplier based in "
    ++ row.country ++ ". They have a lead time of " ++ toString row.lead_time_days
    ++ " days and a reliability rating of " ++ row.reliability_rating
    ++ "/5.0. Contact them at " ++ row.contact_email ++ "."

def convert_order_to_english (row : OrderRow) (customers_df : List CustomerRow) :
    Except String String := do
  let customer ← headOrIndexError
    (customers_df.filter (fun c => c.customer_id == row.customer_id))
  let customer_name := customer.first_name ++ " " ++ customer.last_name
  let discount_text :=
    if row.discount_applied.gtZero then
      " with a discount of $" ++ row.discount_applied.format 2 false ++ " applied"
    else ""
  Except.ok ("Order " ++ row.order_id ++ " was placed by " ++ customer_name ++ " ("
    ++ row.customer_id ++ ") on " ++ row.order_date ++ ". The order uses "
    ++ row.shipping_method ++ " shipping to " ++ row.shipping_address_city
    ++ " and was paid via " ++ row.payment_method ++ ". Current status: "
    ++ row.order_status ++ discount_text ++ ".")

def convert_order_item_to_english (row : OrderItemRow) (products_df : List ProductRow)
    (orders_df : List OrderRow) (customers_df : List CustomerRow) :
    Except String String := do
  let product ← headOrIndexError
    (products_df.filter (fun p => p.product_id == row.product_id))
  let order ← headOrIndexError
    (orders_df.filter (fun o => o.order_id == row.order_id))
  let customer ← headOrIndexError
    (customers_df.filter (fun c => c.customer_id == order.customer_id))
  Except.ok ("In order " ++ row.order_id ++ ", " ++ customer.first_name ++ " "
    ++ customer.last_name ++ " purchased " ++ toString row.quantity
    ++ " unit(s) of \x27" ++ product.product_name ++ "\x27 at $"
    ++ row.unit_price_at_sale.format 2 false ++ " each, totaling $"
    ++ row.total_price.format 2 false ++ ".")

/-- The `sections` list built by `convert_all_to_english`, in source
order: Customers, Suppliers, Products, Orders, Order Line Items. -/
def sections_of (t : Tables) : Except String (List String) := do
  let customer_sentences := t.customers.map convert_customer_to_english
  let supplier_sentences := t.suppliers.map convert_supplier_to_english
  let product_sentences := t.products.map convert_product_to_english
  let order_sentences ← t.orders.mapM (fun r => convert_order_to_english r t.customers)
  let order_item_sentences ← t.order_items.mapM
    (fun r => convert_order_item_to_english r t.products t.orders t.customers)
  Except.ok
    ["## Customers\n\n" ++ pyJoin "\n\n" customer_sentences,
     "## Suppliers\n\n" ++ pyJoin "\n\n" supplier_sentences,
     "## Products\n\n" ++ pyJoin "\n\n" product_sentences,
     "## Orders\n\n" ++ pyJoin "\n\n" order_sentences,
     "## Order Line Items\n\n" ++ pyJoin "\n\n" order_item_sentences]

def convert_all_to_english (t : Tables) : Except String String :=
  (sections_of t).map (pyJoin "\n\n---\n\n")

/-- Encounter-order distinct values (pandas `Series.unique`). -/
def uniqueInOrderAux (seen : List String) : List String → List String
  | [] => []
  | x :: xs =>
    if x ∈ seen then uniqueInOrderAux seen xs
    else x :: uniqueInOrderAux (x :: seen) xs

def uniqueInOrder (l : List String) : List String := uniqueInOrderAux [] l

/-- Descending-count order on tally pairs (larger count first). -/
def countGe (a b : String × Nat) : Prop := b.2 ≤ a.2

instance : DecidableRel countGe := fun a b => inferInstanceAs (Decidable (b.2 ≤ a.2))

instance : IsTotal (String × Nat) countGe := ⟨fun a b => le_total b.2 a.2⟩

instance : IsTrans (String × Nat) countGe := ⟨fun _ _ _ hab hbc => le_trans hbc hab⟩

/-- pandas `Series.value_counts()`: tally the distinct values, then sort
the pairs by count, descending (default `sort=True, ascending=False`).
The stable sort fixes tie order, which pandas leaves unspecified. -/
def value_counts (l : List String) : List (String × Nat) :=
  List.insertionSort countGe ((uniqueInOrder l).map (fun s => (s, l.count s)))

/-- The `Customer segments:` fragment of the summary:
`', '.join(f'{seg}: {count}' ...)` over `value_counts`. -/
def segments_rendered (customers : List CustomerRow) : String :=
  pyJoin ", "
    ((value_counts (customers.map CustomerRow.customer_segment)).map
      (fun p => p.1 ++ ": " ++ toString p.2))

/-- Lexicographic order on String via `compare` (for sorted group keys). -/
def strLeOrd (a b : String) : Prop := compare a b ≠ Ordering.gt

instance : DecidableRel strLeOrd :=
  fun a b => inferInstanceAs (Decidable (compare a b ≠ Ordering.gt))

/-- pandas `groupby('product_id')['total_price'].sum()` (group keys sorted
ascending) followed by `.sort_values(ascending=False)`. -/
def product_sales (items : List OrderItemRow) : List (String × PyFloat) :=
  let keys := List.insertionSort strLeOrd (uniqueInOrder (items.map OrderItemRow.product_id))
  let sums := keys.map (fun k =>
    (k, pyFloatSum ((items.filter (fun i => i.product_id == k)).map OrderItemRow.total_price)))
  List.insertionSort (fun a b => a.2.geB b.2 = true) sums

instance : DecidableRel (fun a b : String × PyFloat => a.2.geB b.2 = true) :=
  fun a b => inferInstanceAs (Decidable (_ = true))

/-- The top-selling-product lookup of `get_summary_statistics`:
`product_sales.index[0]` (IndexError on no line items) followed by
`products[products['product_id'] == top]['product_name'].iloc[0]`
(IndexError when the product is missing). -/
def top_product_name (t : Tables) : Except String String := do
  let top_product_id ← match (product_sales t.order_items).head? with
    | some p => Except.ok p.1
    | none => Except.error "IndexError: index 0 is out of bounds"
  headOrIndexError
    ((t.products.filter (fun p => p.product_id == top_product_id)).map ProductRow.product_name)

/-- The summary f-string with the top-product slot explicit.
`avg_order_value` is NumPy division (no exception on zero orders). -/
def summary_text (t : Tables) (top_product : String) : String :=
  let total_revenue := pyFloatSum (t.order_items.map OrderItemRow.total_price)
  let total_orders := t.orders.length
  let avg_order_value := total_revenue.div (.finite (Frac.ofInt total_orders))
  "\n## Data Summary\n\nThe e-commerce database contains:\n- "
    ++ toString t.customers.length ++ " customers across "
    ++ toString (uniqueInOrder (t.customers.map CustomerRow.state)).length ++ " states\n- "
    ++ toString t.products.length ++ " products from "
    ++ toString t.suppliers.length ++ " suppliers\n- "
    ++ toString total_orders ++ " orders with "
    ++ toString t.order_items.length ++ " line items\n- Total revenue: $"
    ++ total_revenue.format 2 true ++ "\n- Average order value: $"
    ++ avg_order_value.format 2 true
    ++ "\n\nCustomer segments: " ++ segments_rendered t.customers
    ++ "\n\nThe best-selling product by revenue is \x22" ++ top_product ++ "\x22.\n"

/-- Embedding of `get_summary_statistics`: the two positional accesses in
`top_product_name` are the only failure points. -/
def get_summary_statistics (t : Tables) : Except String String := do
  let top_product ← top_product_name t
  Except.ok (summary_text t top_product)

/-!
Embedding of `src/data_loader.py`.

The on-disk data directory is modelled by `Store`: the raw text and the
`read_csv`-parsed generic rows of every `*.csv` file, the typed five-table
view used by the prose renderer (`none` when some required table is
absent, in which case `convert_all_to_english`'s dict indexing raises
`KeyError`), and the schema metadata document carried in its
`json.dumps(..., indent=2)` serialized form (the only form the experiment
code consumes), `none` when the file is absent.
-/

/-- A scalar cell of a parsed CSV row. -/
inductive GVal
  | str (v : String)
  | int (v : ℤ)
deriving DecidableEq, Repr

/-- A generic parsed row: column name to cell value, in column order. -/
def GRow : Type := List (String × GVal)

/-- A generic parsed table: rows in file order. -/
def GTable : Type := List GRow

instance : DecidableEq GRow := inferInstanceAs (DecidableEq (List (String × GVal)))

instance : DecidableEq GTable := inferInstanceAs (DecidableEq (List GRow))

structure Store where
  files : List (String × String)
  generic : List (String × GTable)
  typedTables : Option Tables
  metadata : Option String

/-- Order on name-keyed pairs (Python `sorted` on file names / dict keys). -/
def byName {β : Type} (a b : String × β) : Prop := strLeOrd a.1 b.1

instance {β : Type} : DecidableRel (@byName β) :=
  fun a b => inferInstanceAs (Decidable (strLeOrd a.1 b.1))

def sortedByName {β : Type} (l : List (String × β)) : List (String × β) :=
  List.insertionSort byName l

/-- `load_all_tables()`: every backing file present on disk, keyed by file
stem (the dict in glob order; key set is what matters to callers). -/
def load_all_tables (s : Store) : List (String × GTable) := s.generic

/-- `get_all_csv_as_string()`: each table's raw text preceded by a
`=== TABLE: name ===` header, tables sorted by name, blank-line separated. -/
def get_all_csv_as_string (s : Store) : String :=
  pyJoin "\n\n"
    ((sortedByName s.files).map (fun p => "=== TABLE: " ++ p.1 ++ " ===\n" ++ p.2))

/-- `load_metadata()`: the schema document (carried serialized), raising
`FileNotFoundError` when absent. -/
def load_metadata (s : Store) : Except String String :=
  match s.metadata with
  | some m => Except.ok m
  | none => Except.error "FileNotFoundError: Metadata not found"

/-- JSON value tree (the shape produced by building the `data` dict in
`get_all_data_as_json` and serializing it; parsing the serialized string
with the standard library recovers this tree). -/
inductive Json
  | str (s : String)
  | int (n : ℤ)
  | arr (xs : List Json)
  | obj (fields : List (String × Json))

def GVal.toJson : GVal → Json
  | .str v => .str v
  | .int v => .int v

def rowToJson (r : GRow) : Json := .obj (r.map (fun p => (p.1, p.2.toJson)))

/-- The fields of the serialized top-level object: one per table (sorted
by name), each an array of row objects (`df.to_dict(orient="records")`
yields one object per row). -/
def json_fields (s : Store) : List (String × Json) :=
  (sortedByName (load_all_tables s)).map
    (fun p => (p.1, Json.arr (p.2.map rowToJson)))

/-- The JSON value serialized by `get_all_data_as_json()`; parsing the
serialized string with the standard library recovers this tree. -/
def get_all_data_as_json_value (s : Store) : Json :=
  .obj (json_fields s)

def escapeJsonString (s : String) : String :=
  String.join (s.data.map (fun c =>
    if c = '\x22' then "\x5c\x22"
    else if c = '\x5c' then "\x5c\x5c"
    else if c = '\n' then "\x5cn"
    else String.mk [c]))

def GVal.renderJson : GVal → String
  | .str v => "\x22" ++ escapeJsonString v ++ "\x22"
  | .int v => toString v

def GRow.renderJson (r : GRow) : String :=
  "\x7b" ++ pyJoin ", "
    (r.map (fun p => "\x22" ++ escapeJsonString p.1 ++ "\x22: " ++ p.2.renderJson))
    ++ "\x7d"

/-- `get_all_data_as_json()` as a string, for prompt assembly (the 2-space
pretty-printed whitespace layout of `json.dumps(indent=2)` is not
reproduced; no claim depends on the layout). -/
def get_all_data_as_json (s : Store) : String :=
  "\x7b" ++ pyJoin ", "
    ((sortedByName (load_all_tables s)).map (fun p =>
      "\x22" ++ escapeJsonString p.1 ++ "\x22: [" ++ pyJoin ", " (p.2.map GRow.renderJson) ++ "]"))
    ++ "\x7d"

/-!
Embedding of `src/experiment.py`.

The Gemini transport is abstracted: the non-streaming `endpoint` maps the
assembled request to either a `Response` or a raised error (`Except`);
the streaming transport maps the request configuration and contents to the
sequence of chunks it delivered before either finishing normally
(`none`) or raising mid-stream (`some message`).
-/

inductive DataFormat
  | raw_csv
  | csv_with_metadata
  | english_sentences
  | json
  | json_with_metadata
deriving DecidableEq, Repr

/-- Enumeration order of `class DataFormat(str, Enum)`. -/
def all_data_formats : List DataFormat :=
  [.raw_csv, .csv_with_metadata, .english_sentences, .json, .json_with_metadata]

def DataFormat.value : DataFormat → String
  | .raw_csv => "raw_csv"
  | .csv_with_metadata => "csv_with_metadata"
  | .english_sentences => "english_sentences"
  | .json => "json"
  | .json_with_metadata => "json_with_metadata"

/-- `DataFormat(request.data_format)`: `none` models the `ValueError` on a
string outside the five member values. -/
def DataFormat.fromString (s : String) : Option DataFormat :=
  all_data_formats.find? (fun f => f.value == s)

/-- `convert_all_to_english()` as called on the store: indexing the loaded
dict raises `KeyError` when a required table's file is absent. -/
def convert_all_to_english_store (s : Store) : Except String String :=
  match s.typedTables with
  | some t => convert_all_to_english t
  | none => Except.error "KeyError: missing table"

/-- The triple-quoted system prompt literal of `run_single_experiment`
(lines 264-266): note the literal embeds two newline characters. -/
def system_prompt_single : String :=
  "You are a data analyst assistant. Answer the question based solely on the provided data.\nBe precise and concise. If you need to perform calculations, show your reasoning briefly.\nGive a direct answer first, then explain if needed."

/-- The identical system prompt literal of `run_single_experiment_streaming`
(lines 372-374). -/
def system_prompt_streaming : String :=
  "You are a data analyst assistant. Answer the question based solely on the provided data.\nBe precise and concise. If you need to perform calculations, show your reasoning briefly.\nGive a direct answer first, then explain if needed."

/-- The system instruction as quoted (single-line) in the specification. -/
def spec_system_instruction : String :=
  "You are a data analyst assistant. Answer the question based solely on the provided data. Be precise and concise. If you need to perform calculations, show your reasoning briefly. Give a direct answer first, then explain if needed."

def newlinesToSpaces (s : String) : String :=
  String.mk (s.data.map (fun c => if c = '\n' then ' ' else c))

/-- The request `config` dict: system instruction, temperature, and a
thinking budget of 4096 when thinking is enabled and the model identifier
contains "2.5". -/
structure GenConfig where
  system_instruction : String
  temperature : Frac
  thinking_config : Option Nat
deriving DecidableEq, Repr

/-- Config construction in `run_single_experiment` (lines 281-288). -/
def experiment_config (temperature : Frac) (thinking_enabled : Bool) (model : String) :
    GenConfig :=
  { system_instruction := system_prompt_single
    temperature := temperature
    thinking_config :=
      if thinking_enabled && strContains model "2.5" then some 4096 else none }

/-- Config construction in `run_single_experiment_streaming` (lines 403-410). -/
def streaming_config (temperature : Frac) (thinking_enabled : Bool) (model : String) :
    GenConfig :=
  { system_instruction := system_prompt_streaming
    temperature := temperature
    thinking_config :=
      if thinking_enabled && strContains model "2.5" then some 4096 else none }

/-- `_prepare_data_prompt`: the data-section text per encoding.  The
metadata branches raise `FileNotFoundError` when the schema document is
absent; the prose branch propagates `KeyError` / rendering failures. -/
def _prepare_data_prompt (s : Store) : DataFormat → Except String String
  | .raw_csv =>
    Except.ok ("Here is the data in CSV format:\n\n" ++ get_all_csv_as_string s)
  | .csv_with_metadata => do
    let metadata_str ← load_metadata s
    Except.ok ("Here is the database schema metadata:\n\n" ++ metadata_str
      ++ "\n\nHere is the data in CSV format:\n\n" ++ get_all_csv_as_string s)
  | .english_sentences => do
    let english_data ← convert_all_to_english_store s
    Except.ok ("Here is the e-commerce data described in natural language:\n\n" ++ english_data)
  | .json =>
    Except.ok ("Here is the data in JSON format:\n\n" ++ get_all_data_as_json s)
  | .json_with_metadata => do
    let metadata_str ← load_metadata s
    Except.ok ("Here is the database schema metadata:\n\n" ++ metadata_str
      ++ "\n\nHere is the data in JSON format:\n\n" ++ get_all_data_as_json s)

/-- The user prompt assembled around the data section. -/
def full_prompt_of (data_prompt question : String) : String :=
  data_prompt ++ "\n\n---\n\nQuestion: " ++ question ++ "\n\nPlease provide your answer:"

structure UsageMeta where
  prompt_token_count : Option Nat
  candidates_token_count : Option Nat
deriving DecidableEq, Repr

structure RespPart where
  thought : Bool
  text : Option String
deriving DecidableEq, Repr

structure RespContent where
  parts : List RespPart
deriving DecidableEq, Repr

structure RespCandidate where
  content : Option RespContent
deriving DecidableEq, Repr

/-- A `GenerateContentResponse` (also the shape of one streamed chunk):
the aggregated `.text` convenience field, the structural candidates, and
optional usage metadata. -/
structure Response where
  text : Option String
  candidates : Option (List RespCandidate)
  usage_metadata : Option UsageMeta
deriving DecidableEq, Repr

/-- Answer extraction of `run_single_experiment` (lines 299-321): prefer a
truthy `.text`; otherwise walk candidates and append every truthy part
text (the `thought` flag is NOT consulted here).  Total: when nothing is
extractable the answer stays `""`. -/
def extract_answer (r : Response) : String :=
  if optStrTruthy r.text then r.text.getD ""
  else
    match r.candidates with
    | none => ""
    | some cs =>
      if cs.isEmpty then ""
      else
        cs.foldl (fun acc cand =>
          match cand.content with
          | some content =>
            if content.parts.isEmpty then acc
            else content.parts.foldl
              (fun a p => if optStrTruthy p.text then a ++ p.text.getD "" else a) acc
          | none => acc) ""

/-- The non-empty part texts of one candidate, thought parts included. -/
def candidate_fragments (cand : RespCandidate) : List String :=
  match cand.content with
  | some content =>
    content.parts.filterMap (fun p => if optStrTruthy p.text then p.text else none)
  | none => []

/-- The non-empty part texts of all candidates, in order, thought parts
included (what `extract_answer` actually concatenates). -/
def answer_fragments (r : Response) : List String :=
  (r.candidates.getD []).flatMap candidate_fragments

/-- Extraction restated declaratively: prefer a truthy aggregated `.text`
field; otherwise the concatenation of every non-empty part text of every
candidate, thought parts included; empty string when nothing is there. -/
def extract_answer_amended (r : Response) : String :=
  if optStrTruthy r.text then r.text.getD "" else strConcat (answer_fragments r)

/-- Extraction as the claim words it: like `extract_answer_amended`, but
skipping parts flagged as thinking content in the fallback walk. -/
def extract_answer_claimed (r : Response) : String :=
  if optStrTruthy r.text then r.text.getD ""
  else
    strConcat ((r.candidates.getD []).flatMap (fun cand =>
      match cand.content with
      | some content =>
        content.parts.filterMap (fun p =>
          if p.thought then none
          else if optStrTruthy p.text then p.text else none)
      | none => []))

structure ModelRequest where
  model : String
  contents : String
  config : GenConfig
deriving DecidableEq, Repr

/-- The request `run_single_experiment` assembles before calling the
endpoint (prompt construction, lines 262-294). -/
def experiment_request (s : Store) (question : String) (data_format : DataFormat)
    (model : String) (temperature : Frac) (thinking_enabled : Bool) :
    Except String ModelRequest := do
  let data_prompt ← _prepare_data_prompt s data_format
  Except.ok
    { model := model
      contents := full_prompt_of data_prompt question
      config := experiment_config temperature thinking_enabled model }

/-- `ExperimentResult` (latency omitted: wall clock). -/
structure ExperimentResult where
  question : String
  data_format : DataFormat
  answer : String
  input_tokens : Nat
  output_tokens : Nat
  model : String
  system_prompt : String
  user_prompt : String
deriving DecidableEq, Repr

/-- `run_single_experiment`: build the request, call the endpoint (whose
raised errors propagate, per the synchronous path), extract answer and
token counts (defaulting to zero without usage metadata). -/
def run_single_experiment (s : Store) (question : String) (data_format : DataFormat)
    (model : String) (temperature : Frac) (thinking_enabled : Bool)
    (endpoint : ModelRequest → Except String Response) : Except String ExperimentResult := do
  let req ← experiment_request s question data_format model temperature thinking_enabled
  let response ← endpoint req
  let answer := extract_answer response
  let tokens :=
    match response.usage_metadata with
    | some u => (u.prompt_token_count.getD 0, u.candidates_token_count.getD 0)
    | none => (0, 0)
  Except.ok
    { question := question
      data_format := data_format
      answer := answer
      input_tokens := tokens.1
      output_tokens := tokens.2
      model := model
      system_prompt := system_prompt_single
      user_prompt := req.contents }

/-- The events yielded by the streaming generator (latency and
time-to-first-token fields of `complete` omitted: wall clock). -/
inductive StreamEvent
  | prompt (data_format system_prompt user_prompt : String) (prompt_length : Nat)
  | thinking (data_format text : String)
  | chunk (data_format text : String)
  | error (data_format error : String)
  | complete (data_format answer : String) (input_tokens output_tokens : Nat) (model : String)
deriving DecidableEq, Repr

/-- Per-chunk extraction of `(chunk_thinking, chunk_text)` (streaming
loop, lines 419-444): last thought part's text wins for thinking, last
truthy non-thought text wins for text; then the `chunk.text` fallback when
the structural walk produced nothing truthy. -/
def chunk_extract (c : Response) : Option String × Option String :=
  let walked := (c.candidates.getD []).foldl
    (fun acc cand =>
      match cand.content with
      | some content =>
        content.parts.foldl
          (fun a p =>
            if p.thought then (p.text, a.2)
            else if optStrTruthy p.text then (a.1, p.text) else a) acc
      | none => acc)
    (none, none)
  if optStrTruthy walked.2 then walked else (walked.1, c.text)

/-- The zero, one or two events one streamed chunk contributes: a
`thinking` event for truthy thinking content (yielded first), then a
`chunk` event for truthy answer text. -/
def chunk_events (fmtVal : String) (c : Response) : List StreamEvent :=
  let p := chunk_extract c
  (if optStrTruthy p.1 then [StreamEvent.thinking fmtVal (p.1.getD "")] else [])
    ++ (if optStrTruthy p.2 then [StreamEvent.chunk fmtVal (p.2.getD "")] else [])

/-- `full_answer` accumulated over the delivered chunks. -/
def stream_answer (delivered : List Response) : String :=
  delivered.foldl
    (fun acc c =>
      let tx := (chunk_extract c).2
      if optStrTruthy tx then acc ++ tx.getD "" else acc) ""

/-- Token counters: overwritten by each chunk carrying usage metadata. -/
def stream_tokens (delivered : List Response) : Nat × Nat :=
  delivered.foldl
    (fun acc c =>
      match c.usage_metadata with
      | some u => (u.prompt_token_count.getD 0, u.candidates_token_count.getD 0)
      | none => acc)
    (0, 0)

/-- `run_single_experiment_streaming`.  The generator is embedded as the
full event sequence it yields: `Except.ok events` when it terminates
normally, `Except.error e` when an exception escapes it — which happens
exactly when prompt preparation raises, on the consumer's first iteration,
before any event (the `try` only wraps the stream loop).  A transport
raise mid-stream (`stream ... = (delivered, some msg)`) is caught and
turned into a terminal `error` event after the events of the chunks
delivered so far; normal termination appends the single `complete` event. -/
def run_single_experiment_streaming (s : Store) (question : String)
    (data_format : DataFormat) (model : String) (temperature : Frac)
    (thinking_enabled : Bool)
    (stream : GenConfig → String → List Response × Option String) :
    Except String (List StreamEvent) := do
  let data_prompt ← _prepare_data_prompt s data_format
  let full_prompt := full_prompt_of data_prompt question
  let config := streaming_config temperature thinking_enabled model
  let promptEv := StreamEvent.prompt data_format.value system_prompt_streaming
    full_prompt full_prompt.length
  let r := stream config full_prompt
  let body := r.1.flatMap (chunk_events data_format.value)
  match r.2 with
  | some msg =>
    Except.ok (promptEv :: (body ++ [StreamEvent.error data_format.value msg]))
  | none =>
    let tk := stream_tokens r.1
    Except.ok (promptEv :: (body
      ++ [StreamEvent.complete data_format.value (stream_answer r.1) tk.1 tk.2 model]))

structure ComparisonResult where
  question : String
  expected_answer : Option String
  results : List (DataFormat × ExperimentResult)
deriving DecidableEq, Repr

/-- `run_comparison` generalized over the temperature and thinking
settings it would pass to the runner (stated for comparison against the
source function, which passes none). -/
def run_comparison_with_settings (s : Store) (question : String)
    (expected_answer : Option String) (model : String) (temperature : Frac)
    (thinking_enabled : Bool) (endpoint : ModelRequest → Except String Response) :
    Except String ComparisonResult := do
  let results ← all_data_formats.mapM (fun fmt =>
    (run_single_experiment s question fmt model temperature thinking_enabled endpoint).map
      (fun r => (fmt, r)))
  Except.ok { question := question, expected_answer := expected_answer, results := results }

/-- `run_comparison` (lines 500-516): loops the enum in order calling
`run_single_experiment(question, data_format, model)` — the Python
defaults `temperature=1.0, thinking_enabled=False` therefore apply. -/
def run_comparison (s : Store) (question : String) (expected_answer : Option String)
    (model : String) (endpoint : ModelRequest → Except String Response) :
    Except String ComparisonResult := do
  let results ← all_data_formats.mapM (fun fmt =>
    (run_single_experiment s question fmt model (Frac.ofInt 1) false endpoint).map
      (fun r => (fmt, r)))
  Except.ok { question := question, expected_answer := expected_answer, results := results }

/-!
Embedding of the `web_app.py` handlers named by the claims.
-/

/-- `SingleExperimentRequest`: note it carries `temperature` and
`thinking_enabled` fields. -/
structure SingleExperimentRequest where
  question : String
  data_format : String
  model : String
  temperature : Frac
  thinking_enabled : Bool
deriving DecidableEq, Repr

structure SingleResponse where
  question : String
  data_format : String
  answer : String
  input_tokens : Nat
  output_tokens : Nat
  model : String
deriving DecidableEq, Repr

inductive HandlerResult
  | ok (payload : SingleResponse)
  | httpError (status : Nat) (detail : String)
deriving DecidableEq, Repr

/-- `POST /api/experiment/single` (`run_single`, lines 201-226): parses
the format (400 on `ValueError`), then calls
`run_single_experiment(question=..., data_format=..., model=...)` — the
request's `temperature` and `thinking_enabled` fields are not forwarded,
so the runner's defaults apply; runner exceptions become HTTP 500. -/
def run_single (s : Store) (request : SingleExperimentRequest)
    (endpoint : ModelRequest → Except String Response) : HandlerResult :=
  match DataFormat.fromString request.data_format with
  | none => HandlerResult.httpError 400 ("Invalid data format: " ++ request.data_format)
  | some fmt =>
    match run_single_experiment s request.question fmt request.model
        (Frac.ofInt 1) false endpoint with
    | Except.ok r =>
      HandlerResult.ok
        { question := r.question
          data_format := r.data_format.value
          answer := r.answer
          input_tokens := r.input_tokens
          output_tokens := r.output_tokens
          model := r.model }
    | Except.error e => HandlerResult.httpError 500 e

/-- The per-format value dict of the parallel endpoint's `results`. -/
structure WorkerPayload where
  data_format : String
  answer : String
  input_tokens : Nat
  output_tokens : Nat
  model : String
  system_prompt : String
  user_prompt : String
deriving DecidableEq, Repr

inductive WorkerValue
  | result (payload : WorkerPayload)
  | errorMarker (msg : String)
deriving DecidableEq, Repr

/-- The three encodings dispatched by the parallel endpoint. -/
def parallel_formats : List DataFormat :=
  [.raw_csv, .csv_with_metadata, .english_sentences]

/-- `run_format` inside `run_parallel_experiment` (lines 251-273): the
worker's own failure — wherever it arises inside `run_single_experiment` —
is caught and reported as an error marker for that format alone. -/
def run_format (s : Store) (question model : String) (temperature : Frac)
    (thinking_enabled : Bool) (endpoint : ModelRequest → Except String Response)
    (data_format : DataFormat) : String × WorkerValue :=
  match run_single_experiment s question data_format model temperature
      thinking_enabled endpoint with
  | Except.ok r =>
    (data_format.value, WorkerValue.result
      { data_format := r.data_format.value
        answer := r.answer
        input_tokens := r.input_tokens
        output_tokens := r.output_tokens
        model := r.model
        system_prompt := r.system_prompt
        user_prompt := r.user_prompt })
  | Except.error e => (data_format.value, WorkerValue.errorMarker e)

structure ParallelResponse where
  question : String
  model : String
  results : List (String × WorkerValue)
deriving DecidableEq, Repr

/-- `POST /api/experiment/parallel` (lines 243-286): the three workers run
concurrently and their `(format value, result)` pairs are collected into
the `results` dict in completion order — modelled by quantifying over the
`completion_order`, an arbitrary permutation of `parallel_formats`.  The
request's `temperature` and `thinking_enabled` ARE forwarded here. -/
def run_parallel_experiment (s : Store) (question model : String) (temperature : Frac)
    (thinking_enabled : Bool) (endpoint : ModelRequest → Except String Response)
    (completion_order : List DataFormat) : ParallelResponse :=
  { question := question
    model := model
    results := completion_order.map
      (run_format s question model temperature thinking_enabled endpoint) }

/-!
Event classification predicates and concrete data used by the witness
theorems below.
-/

def StreamEvent.isChunkOrThinking : StreamEvent → Bool
  | .thinking _ _ => true
  | .chunk _ _ => true
  | _ => false

def StreamEvent.isError : StreamEvent → Bool
  | .error _ _ => true
  | _ => false

def StreamEvent.isComplete : StreamEvent → Bool
  | .complete _ _ _ _ _ => true
  | _ => false

/-- A product row with `cost_price = 0` (the claimed failure input). -/
def rowP0 : ProductRow :=
  { product_id := "P001", product_name := "Widget", subcategory := "Gadgets"
    category := "Tools", brand := "Acme", supplier_id := "SUP001"
    unit_price := .finite ⟨10, 1⟩, cost_price := .finite ⟨0, 1⟩ }

/-- A product row with the spec §8 margin vector: unit 100, cost 50. -/
def rowP1 : ProductRow :=
  { product_id := "P002", product_name := "Gizmo", subcategory := "Gadgets"
    category := "Tools", brand := "Acme", supplier_id := "SUP001"
    unit_price := .finite ⟨100, 1⟩, cost_price := .finite ⟨50, 1⟩ }

/-- A response whose only content part is flagged as thinking, with no
aggregated text field. -/
def thinking_only_response : Response :=
  { text := none
    candidates := some [{ content := some { parts := [{ thought := true, text := some "internal reasoning" }] } }]
    usage_metadata := none }

def custBasic : CustomerRow :=
  { customer_id := "C1", first_name := "Ann", last_name := "Lee"
    customer_segment := "Basic", join_date := "2020-01-01", city := "Springfield"
    state := "IL", country := "USA", email := "ann@example.com" }

def custPrem1 : CustomerRow :=
  { customer_id := "C2", first_name := "Bob", last_name := "Kim"
    customer_segment := "Premium", join_date := "2020-01-02", city := "Austin"
    state := "TX", country := "USA", email := "bob@example.com" }

def custPrem2 : CustomerRow :=
  { customer_id := "C3", first_name := "Cat", last_name := "Roe"
    customer_segment := "Premium", join_date := "2020-01-03", city := "Austin"
    state := "TX", country := "USA", email := "cat@example.com" }

/-- Small consistent dataset: segment encounter order is Basic, Premium
(counts 1 and 2), one order with one line item totaling $60. -/
def demo_tables : Tables :=
  { customers := [custBasic, custPrem1, custPrem2]
    products := [rowP1]
    suppliers := [{ supplier_id := "SUP001", supplier_name := "TechWorld"
                    country := "USA", contact_email := "sup@example.com"
                    lead_time_days := 5, reliability_rating := "4.8" }]
    orders := [{ order_id := "O1", customer_id := "C1", order_date := "2020-02-01"
                 shipping_method := "Express", shipping_address_city := "Austin"
                 payment_method := "Credit Card", order_status := "Pending"
                 discount_applied := .finite ⟨0, 1⟩ }]
    order_items := [{ order_id := "O1", product_id := "P002", quantity := 3
                      unit_price_at_sale := .finite ⟨20, 1⟩, total_price := .finite ⟨60, 1⟩ }] }

def empty_tables : Tables :=
  { customers := [], products := [], suppliers := [], orders := [], order_items := [] }

/-- A store with one raw CSV file, all five typed tables, and metadata. -/
def demo_store : Store :=
  { files := [("customers", "customer_id,first_name\nC1,Ann\n")]
    generic := [("customers", [[("customer_id", .str "C1"), ("first_name", .str "Ann")]])]
    typedTables := some demo_tables
    metadata := some "schema-metadata-json" }

/-- A store whose schema metadata document is absent. -/
def no_metadata_store : Store :=
  { files := [], generic := [], typedTables := some empty_tables, metadata := none }

/-- A store with two generic tables (out of name order, distinct row
counts). -/
def two_table_store : Store :=
  { files := [("b", "x\n1\n"), ("a", "y\n2\n3\n")]
    generic := [("b", [[("x", .int 1)]]), ("a", [[("y", .int 2)], [("y", .int 3)]])]
    typedTables := none
    metadata := none }

/-- The data-section text `_prepare_data_prompt demo_store .raw_csv` yields. -/
def demo_data_prompt : String :=
  "Here is the data in CSV format:\n\n=== TABLE: customers ===\ncustomer_id,first_name\nC1,Ann\n"

/-- A streamed chunk carrying only the aggregated text field. -/
def chunk_response : Response :=
  { text := some "part", candidates := none, usage_metadata := none }

/-- A transport that delivers one chunk and then raises. -/
def failing_stream : GenConfig → String → List Response × Option String :=
  fun _ _ => ([chunk_response], some "boom")

/-- A transport whose every call raises. -/
def failing_endpoint : ModelRequest → Except String Response :=
  fun _ => Except.error "boom"

/-!
Helper lemmas.
-/

theorem strConcat_append (l₁ l₂ : List String) :
    strConcat (l₁ ++ l₂) = strConcat l₁ ++ strConcat l₂ := by
  induction l₁ with
  | nil => simp [strConcat]
  | cons x xs ih => simp [strConcat, ih, String.append_assoc]

theorem parts_foldl_eq (ps : List RespPart) (a : String) :
    ps.foldl (fun a p => if optStrTruthy p.text then a ++ p.text.getD "" else a) a
      = a ++ strConcat (ps.filterMap (fun p => if optStrTruthy p.text then p.text else none)) := by
  induction ps generalizing a with
  | nil => simp [strConcat]
  | cons p ps ih =>
    cases hcond : optStrTruthy p.text with
    | false =>
      rw [List.foldl_cons, List.filterMap_cons]
      simp only [hcond, Bool.false_eq_true, if_false]
      exact ih a
    | true =>
      obtain ⟨t, hp⟩ : ∃ t, p.text = some t := by
        cases hp : p.text
        · rw [hp] at hcond; simp [optStrTruthy] at hcond
        · exact ⟨_, rfl⟩
      rw [hp] at hcond
      rw [List.foldl_cons, List.filterMap_cons]
      simp only [hp, hcond, if_true, Option.getD_some]
      rw [ih]
      simp only [strConcat, String.append_assoc]

theorem cand_foldl_eq (cs : List RespCandidate) (acc : String) :
    cs.foldl (fun acc cand =>
      match cand.content with
      | some content =>
        if content.parts.isEmpty then acc
        else content.parts.foldl
          (fun a p => if optStrTruthy p.text then a ++ p.text.getD "" else a) acc
      | none => acc) acc
      = acc ++ strConcat (cs.flatMap candidate_fragments) := by
  induction cs generalizing acc with
  | nil => simp [strConcat]
  | cons c cs ih =>
    cases hc : c.content with
    | none =>
      rw [List.foldl_cons, List.flatMap_cons]
      simp only [hc, candidate_fragments, List.nil_append]
      exact ih acc
    | some content =>
      cases hpe : content.parts with
      | nil =>
        rw [List.foldl_cons, List.flatMap_cons]
        simp only [hc, hpe, List.isEmpty_nil, if_true, candidate_fragments,
          List.filterMap_nil, List.nil_append]
        exact ih acc
      | cons p ps =>
        rw [List.foldl_cons, List.flatMap_cons]
        simp only [hc, hpe, List.isEmpty_cons, Bool.false_eq_true, if_false]
        rw [parts_foldl_eq, ih]
        have hfrag : candidate_fragments c
            = List.filterMap (fun p => if optStrTruthy p.text then p.text else none) (p :: ps) := by
          simp [candidate_fragments, hc, hpe]
        rw [hfrag, strConcat_append, ← String.append_assoc]

theorem except_ok_bind {ε α β : Type} (a : α) (f : α → Except ε β) :
    (Except.ok a : Except ε α) >>= f = f a := rfl

/-- C1, counterexample.  A response with no aggregated text whose only
content part is flagged `thought=True` (with non-empty text): the
non-streaming extraction returns that thinking text — it does not skip
thought-flagged parts as the claim states (the claimed extraction yields
the empty string here). -/
theorem c1_counterexample :
    extract_answer thinking_only_response = "internal reasoning"
    ∧ extract_answer_claimed thinking_only_response = "" := by
  constructor <;> rfl

/-- C1, amended.  For every response, the non-streaming runner's answer
extraction prefers the truthy aggregated `.text` field; when that field is
empty or absent it concatenates every non-empty text fragment across all
content parts of all candidates — INCLUDING parts flagged as internal
reasoning ("thinking") content, which the fallback does not skip; and when
no text is obtainable the result is the empty string rather than an
error (`extract_answer` is total). -/
theorem c1_extract_answer_amended (r : Response) :
    extract_answer r = extract_answer_amended r := by
  unfold extract_answer extract_answer_amended
  cases htr : optStrTruthy r.text with
  | true => simp [htr]
  | false =>
    simp only [htr, Bool.false_eq_true, if_false]
    cases hc : r.candidates with
    | none => simp [answer_fragments, hc, strConcat]
    | some cs =>
      cases cs with
      | nil => simp [answer_fragments, hc, strConcat]
      | cons c cs' =>
        simp only [hc, List.isEmpty_cons, Bool.false_eq_true, if_false]
        rw [cand_foldl_eq]
        simp [answer_fragments, hc]

theorem chunk_events_all (fmtVal : String) (c : Response) :
    (chunk_events fmtVal c).all StreamEvent.isChunkOrThinking = true := by
  unfold chunk_events
  cases h1 : optStrTruthy (chunk_extract c).1 <;> cases h2 : optStrTruthy (chunk_extract c).2 <;>
    simp [h1, h2, StreamEvent.isChunkOrThinking]

theorem flatMap_events_all (fmtVal : String) (delivered : List Response) :
    (delivered.flatMap (chunk_events fmtVal)).all StreamEvent.isChunkOrThinking = true := by
  rw [List.all_eq_true]
  intro e he
  rw [List.mem_flatMap] at he
  obtain ⟨c, _, hce⟩ := he
  exact List.all_eq_true.mp (chunk_events_all fmtVal c) e hce

theorem chunkish_not_error_complete (e : StreamEvent) (h : e.isChunkOrThinking = true) :
    e.isError = false ∧ e.isComplete = false := by
  cases e <;> simp_all [StreamEvent.isChunkOrThinking, StreamEvent.isError,
    StreamEvent.isComplete]

/-- C2.  Whenever prompt preparation succeeds and the model transport
raises mid-stream (after delivering `delivered` chunks), the streaming
runner terminates normally (`Except.ok`, i.e. the generator does not
propagate the exception) with the event sequence: the `prompt` event
first, then the chunk-derived events — all of them `chunk` or `thinking`
events — then exactly one terminal `error` event carrying the failure
message; the sequence contains exactly one `error` event and no
`complete` event. -/
theorem c2_streaming_error_events (s : Store) (question : String)
    (data_format : DataFormat) (model : String) (temperature : Frac)
    (thinking_enabled : Bool)
    (stream : GenConfig → String → List Response × Option String)
    (delivered : List Response) (msg : String) (dp : String)
    (hprep : _prepare_data_prompt s data_format = Except.ok dp)
    (hstream : stream (streaming_config temperature thinking_enabled model)
        (full_prompt_of dp question) = (delivered, some msg)) :
    run_single_experiment_streaming s question data_format model temperature
        thinking_enabled stream
      = Except.ok
          (StreamEvent.prompt data_format.value system_prompt_streaming
              (full_prompt_of dp question) (full_prompt_of dp question).length
            :: (delivered.flatMap (chunk_events data_format.value)
              ++ [StreamEvent.error data_format.value msg]))
    ∧ (delivered.flatMap (chunk_events data_format.value)).all
        StreamEvent.isChunkOrThinking = true
    ∧ (StreamEvent.prompt data_format.value system_prompt_streaming
          (full_prompt_of dp question) (full_prompt_of dp question).length
        :: (delivered.flatMap (chunk_events data_format.value)
          ++ [StreamEvent.error data_format.value msg])).countP StreamEvent.isError = 1
    ∧ (StreamEvent.prompt data_format.value system_prompt_streaming
          (full_prompt_of dp question) (full_prompt_of dp question).length
        :: (delivered.flatMap (chunk_events data_format.value)
          ++ [StreamEvent.error data_format.value msg])).countP StreamEvent.isComplete = 0 := by
  have hall := flatMap_events_all data_format.value delivered
  have hzeroE : (delivered.flatMap (chunk_events data_format.value)).countP
      StreamEvent.isError = 0 := by
    rw [List.countP_eq_zero]
    intro e he
    have h := (chunkish_not_error_complete e (List.all_eq_true.mp hall e he)).1
    simp [h]
  have hzeroC : (delivered.flatMap (chunk_events data_format.value)).countP
      StreamEvent.isComplete = 0 := by
    rw [List.countP_eq_zero]
    intro e he
    have h := (chunkish_not_error_complete e (List.all_eq_true.mp hall e he)).2
    simp [h]
  refine ⟨?_, hall, ?_, ?_⟩
  · simp only [run_single_experiment_streaming, hprep, except_ok_bind, hstream]
  · simp [List.countP_cons, List.countP_append, hzeroE, StreamEvent.isError]
  · simp [List.countP_cons, List.countP_append, hzeroC, StreamEvent.isComplete]

/-- C2, witness at a concrete store, one delivered chunk and a transport
that then raises "boom": the runner yields prompt, one chunk event, one
error event, and terminates normally. -/
theorem c2_streaming_error_events_witness :
    run_single_experiment_streaming demo_store "q" DataFormat.raw_csv "m"
        (Frac.ofInt 1) false failing_stream
      = Except.ok
          [StreamEvent.prompt "raw_csv" system_prompt_streaming
              (full_prompt_of demo_data_prompt "q") (full_prompt_of demo_data_prompt "q").length,
            StreamEvent.chunk "raw_csv" "part",
            StreamEvent.error "raw_csv" "boom"] := by
  have h := c2_streaming_error_events demo_store "q" DataFormat.raw_csv "m"
    (Frac.ofInt 1) false failing_stream [chunk_response] "boom" demo_data_prompt rfl rfl
  exact h.1

/-- C10.  In the streaming runner, an exception raised while preparing the
data-section prompt (missing table file, missing schema document, or a
rendering failure) propagates out of the generator — modelled as the whole
run evaluating to `Except.error` — on the consumer's first iteration,
before any event, `prompt` included, has been yielded; only exceptions
raised inside the stream loop are converted to a terminal `error` event
(theorem for C2). -/
theorem c10_prepare_failure_propagates (s : Store) (question : String)
    (data_format : DataFormat) (model : String) (temperature : Frac)
    (thinking_enabled : Bool)
    (stream : GenConfig → String → List Response × Option String) (e : String)
    (hprep : _prepare_data_prompt s data_format = Except.error e) :
    run_single_experiment_streaming s question data_format model temperature
        thinking_enabled stream
      = Except.error e := by
  simp only [run_single_experiment_streaming, hprep]
  rfl

/-- C10, witness: a store without the schema metadata document, requested
with the metadata encoding — preparation raises `FileNotFoundError` and
the generator propagates it with no events. -/
theorem c10_prepare_failure_propagates_witness :
    run_single_experiment_streaming no_metadata_store "q"
        DataFormat.csv_with_metadata "m" (Frac.ofInt 1) false failing_stream
      = Except.error "FileNotFoundError: Metadata not found" :=
  c10_prepare_failure_propagates no_metadata_store "q" DataFormat.csv_with_metadata
    "m" (Frac.ofInt 1) false failing_stream "FileNotFoundError: Metadata not found" rfl

/-- C4, counterexample.  A product row with `cost_price = 0` (and
`unit_price = 10`): rendering does NOT fail with a division-by-zero error —
NumPy float semantics yield an infinite margin percentage and the full
sentence is produced, with "(inf%)" in the margin-percent slot. -/
theorem c4_counterexample :
    convert_product_to_english rowP0
      = "The product \x27Widget\x27 (ID: P001) is a Gadgets item in the Tools category, manufactured by Acme. It is priced at $10.00 with a cost of $0.00, yielding a margin of $10.00 (inf%). This product is supplied by SUP001." := by
  rfl

/-- C4, amended.  For a product row with finite prices: when `cost_price`
is zero (and the margin is positive), rendering does not raise — it
returns the templated sentence with margin `unit_price - cost_price` and
the margin-percent slot rendered "inf" (the IEEE quotient); when
`cost_price` is nonzero it returns the templated sentence with
margin = unit_price - cost_price and margin_pct = margin/cost_price*100. -/
theorem c4_product_margin_amended (row : ProductRow) (u c : Frac)
    (hu : row.unit_price = PyFloat.finite u) (hc : row.cost_price = PyFloat.finite c) :
    (c.isZero = true → (u.sub c).isPos = true →
      convert_product_to_english row
        = product_sentence row ((u.sub c).format 2 false) "inf")
    ∧ (c.isZero = false →
      convert_product_to_english row
        = product_sentence row ((u.sub c).format 2 false)
            ((((u.sub c).div c).mul (Frac.ofInt 100)).format 1 false)) := by
  constructor
  · intro hz hpos
    simp only [convert_product_to_english, hu, hc, PyFloat.sub, PyFloat.div, hz, if_true,
      hpos, PyFloat.mul, PyFloat.format]
    have h100 : (Frac.ofInt 100).isZero = false := by decide
    have h100p : (Frac.ofInt 100).isPos = true := by decide
    simp [h100, h100p, PyFloat.format]
  · intro hz
    simp [convert_product_to_english, hu, hc, PyFloat.sub, PyFloat.div, hz,
      PyFloat.mul, PyFloat.format, Frac.ofInt]

/-- C4, witness: both halves of the amended theorem evaluated — the
zero-cost row renders with "inf" in the percent slot, the 100/50 row with
the finite percentage. -/
theorem c4_product_margin_amended_witness :
    (convert_product_to_english rowP0
      = product_sentence rowP0 ((Frac.sub ⟨10, 1⟩ ⟨0, 1⟩).format 2 false) "inf")
    ∧ (convert_product_to_english rowP1
      = product_sentence rowP1 ((Frac.sub ⟨100, 1⟩ ⟨50, 1⟩).format 2 false)
          ((((Frac.sub ⟨100, 1⟩ ⟨50, 1⟩).div ⟨50, 1⟩).mul (Frac.ofInt 100)).format 1 false)) :=
  ⟨(c4_product_margin_amended rowP0 ⟨10, 1⟩ ⟨0, 1⟩ rfl rfl).1 (by decide) (by decide),
    (c4_product_margin_amended rowP1 ⟨100, 1⟩ ⟨50, 1⟩ rfl rfl).2 (by decide)⟩

/-- C8, counterexample.  The system instruction actually sent (at any
concrete input, here temperature 1, thinking off, model
"gemini-2.5-flash") is not character-for-character equal to the spec's
quoted text: the source literal has newline characters where the quote has
spaces. -/
theorem c8_counterexample :
    (experiment_config (Frac.ofInt 1) false "gemini-2.5-flash").system_instruction
      ≠ spec_system_instruction := by
  decide

set_option maxRecDepth 4096 in
/-- C8, amended.  The system instruction is one fixed string: the two
runners' literals are identical, every config either runner builds carries
exactly that string for every temperature, thinking setting and model (and
the config does not depend on the encoding at all), and the literal equals
the spec's quoted text up to replacing its two newline characters with
spaces. -/
theorem c8_system_instruction_amended :
    system_prompt_single = system_prompt_streaming
    ∧ newlinesToSpaces system_prompt_single = spec_system_instruction
    ∧ (∀ (temperature : Frac) (thinking_enabled : Bool) (model : String),
        (experiment_config temperature thinking_enabled model).system_instruction
            = system_prompt_single
        ∧ (streaming_config temperature thinking_enabled model).system_instruction
            = system_prompt_single) := by
  refine ⟨rfl, by decide, fun _ _ _ => ⟨rfl, rfl⟩⟩

/-- C9.  The sequential comparison path never uses caller-supplied
temperature or thinking settings: the single-experiment HTTP handler's
result is invariant in the request's `temperature` and `thinking_enabled`
fields (it always calls the runner with the defaults 1.0 / disabled);
`run_comparison` equals its settings-generalized form instantiated at
exactly those defaults; and the default config has temperature 1 and no
thinking budget for every model. -/
theorem c9_sequential_ignores_settings :
    (∀ (s : Store) (endpoint : ModelRequest → Except String Response)
        (question data_format model : String) (t₁ t₂ : Frac) (b₁ b₂ : Bool),
      run_single s
          { question := question, data_format := data_format, model := model
            temperature := t₁, thinking_enabled := b₁ } endpoint
        = run_single s
            { question := question, data_format := data_format, model := model
              temperature := t₂, thinking_enabled := b₂ } endpoint)
    ∧ (∀ (s : Store) (question : String) (expected_answer : Option String)
        (model : String) (endpoint : ModelRequest → Except String Response),
      run_comparison s question expected_answer model endpoint
        = run_comparison_with_settings s question expected_answer model
            (Frac.ofInt 1) false endpoint)
    ∧ (∀ model : String,
      (experiment_config (Frac.ofInt 1) false model).temperature = Frac.ofInt 1
      ∧ (experiment_config (Frac.ofInt 1) false model).thinking_config = none) := by
  refine ⟨fun _ _ _ _ _ _ _ _ _ => rfl, fun _ _ _ _ _ => rfl, fun model => ⟨rfl, ?_⟩⟩
  simp [experiment_config]

theorem lookup_eq_of_mem_of_nodup {β : Type} (l : List (String × β)) (k : String) (v : β)
    (hnd : (l.map Prod.fst).Nodup) (hmem : (k, v) ∈ l) : l.lookup k = some v := by
  induction l with
  | nil => cases hmem
  | cons p l ih =>
    rcases List.mem_cons.mp hmem with h | h
    · subst h
      simp [List.lookup]
    · have hk : k ≠ p.1 := by
        intro hkp
        have : p.1 ∈ l.map Prod.fst := by
          rw [← hkp]
          exact List.mem_map.mpr ⟨(k, v), h, rfl⟩
        exact (List.nodup_cons.mp hnd).1 this
      have hbeq : (k == p.1) = false := beq_eq_false_iff_ne.mpr hk
      cases p with
      | mk a b =>
        simp only [List.lookup, hbeq]
        exact ih (List.nodup_cons.mp hnd).2 h

theorem run_format_fst (s : Store) (question model : String) (temperature : Frac)
    (thinking_enabled : Bool) (endpoint : ModelRequest → Except String Response)
    (data_format : DataFormat) :
    (run_format s question model temperature thinking_enabled endpoint data_format).1
      = data_format.value := by
  unfold run_format
  cases run_single_experiment s question data_format model temperature thinking_enabled
    endpoint <;> rfl

/-- C3.  For every question, model, temperature, thinking setting,
endpoint behaviour and completion order (any permutation of the three
dispatched encodings), the parallel comparison's `results` mapping has as
keys exactly the three designated encodings — raw tabular, tabular with
metadata, prose — each exactly once; each encoding's value is its own
worker's outcome, and in particular a failed worker's encoding maps to the
`errorMarker` carrying that worker's message while the other encodings'
entries are their own results, unaffected.  This holds even when every
worker's experiment raises (witness). -/
theorem c3_parallel_keys_invariant (s : Store) (question model : String)
    (temperature : Frac) (thinking_enabled : Bool)
    (endpoint : ModelRequest → Except String Response)
    (completion_order : List DataFormat)
    (hperm : completion_order.Perm parallel_formats) :
    (((run_parallel_experiment s question model temperature thinking_enabled endpoint
        completion_order).results.map Prod.fst).Perm
      ["raw_csv", "csv_with_metadata", "english_sentences"])
    ∧ (∀ fmt ∈ parallel_formats,
      (run_parallel_experiment s question model temperature thinking_enabled endpoint
          completion_order).results.lookup fmt.value
        = some (run_format s question model temperature thinking_enabled endpoint fmt).2)
    ∧ (∀ fmt ∈ parallel_formats, ∀ e,
      run_single_experiment s question fmt model temperature thinking_enabled endpoint
          = Except.error e →
      (run_parallel_experiment s question model temperature thinking_enabled endpoint
          completion_order).results.lookup fmt.value
        = some (WorkerValue.errorMarker e)) := by
  have hmapfst : (run_parallel_experiment s question model temperature thinking_enabled
      endpoint completion_order).results.map Prod.fst
      = completion_order.map DataFormat.value := by
    unfold run_parallel_experiment
    rw [List.map_map]
    exact List.map_congr_left (fun f _ =>
      run_format_fst s question model temperature thinking_enabled endpoint f)
  have hvalsperm : (completion_order.map DataFormat.value).Perm
      ["raw_csv", "csv_with_metadata", "english_sentences"] := hperm.map DataFormat.value
  have hnodup : ((run_parallel_experiment s question model temperature thinking_enabled
      endpoint completion_order).results.map Prod.fst).Nodup := by
    rw [hmapfst]
    exact hvalsperm.nodup_iff.mpr (by decide)
  have hlookup : ∀ fmt ∈ parallel_formats,
      (run_parallel_experiment s question model temperature thinking_enabled endpoint
          completion_order).results.lookup fmt.value
        = some (run_format s question model temperature thinking_enabled endpoint fmt).2 := by
    intro fmt hf
    have hmemo : fmt ∈ completion_order := hperm.mem_iff.mpr hf
    have hmemr : (fmt.value,
        (run_format s question model temperature thinking_enabled endpoint fmt).2)
        ∈ (run_parallel_experiment s question model temperature thinking_enabled endpoint
          completion_order).results := by
      unfold run_parallel_experiment
      have := List.mem_map.mpr
        ⟨fmt, hmemo, (rfl : run_format s question model temperature thinking_enabled
          endpoint fmt = _)⟩
      have heta : run_format s question model temperature thinking_enabled endpoint fmt
          = (fmt.value,
            (run_format s question model temperature thinking_enabled endpoint fmt).2) := by
        rw [← run_format_fst s question model temperature thinking_enabled endpoint fmt]
      rw [← heta]
      exact this
    exact lookup_eq_of_mem_of_nodup _ _ _ hnodup hmemr
  refine ⟨by rw [hmapfst]; exact hvalsperm, hlookup, ?_⟩
  intro fmt hf e he
  have h := hlookup fmt hf
  rw [h]
  unfold run_format
  rw [he]

/-- C3, witness: a nontrivial completion order with a transport whose
every call raises "boom" — total failure: the key multiset is still
exactly the three encodings and each maps to the error marker. -/
theorem c3_parallel_keys_invariant_witness :
    (((run_parallel_experiment demo_store "q" "m" (Frac.ofInt 1) false failing_endpoint
        [DataFormat.english_sentences, DataFormat.raw_csv, DataFormat.csv_with_metadata]).results.map
        Prod.fst).Perm ["raw_csv", "csv_with_metadata", "english_sentences"])
    ∧ (run_parallel_experiment demo_store "q" "m" (Frac.ofInt 1) false failing_endpoint
        [DataFormat.english_sentences, DataFormat.raw_csv, DataFormat.csv_with_metadata]).results.lookup
        "english_sentences" = some (WorkerValue.errorMarker "boom")
    ∧ (run_parallel_experiment demo_store "q" "m" (Frac.ofInt 1) false failing_endpoint
        [DataFormat.english_sentences, DataFormat.raw_csv, DataFormat.csv_with_metadata]).results.lookup
        "raw_csv" = some (WorkerValue.errorMarker "boom") := by
  have h := c3_parallel_keys_invariant demo_store "q" "m" (Frac.ofInt 1) false
    failing_endpoint
    [DataFormat.english_sentences, DataFormat.raw_csv, DataFormat.csv_with_metadata]
    (by decide)
  refine ⟨h.1, ?_, ?_⟩
  · have he : run_single_experiment demo_store "q" DataFormat.english_sentences "m"
        (Frac.ofInt 1) false failing_endpoint = Except.error "boom" := by rfl
    exact h.2.2 DataFormat.english_sentences (by decide) "boom" he
  · have he : run_single_experiment demo_store "q" DataFormat.raw_csv "m"
        (Frac.ofInt 1) false failing_endpoint = Except.error "boom" := by rfl
    exact h.2.2 DataFormat.raw_csv (by decide) "boom" he

theorem except_error_bind {ε α β : Type} (e : ε) (f : α → Except ε β) :
    (Except.error e : Except ε α) >>= f = Except.error e := rfl

/-- C5.  Whenever all five backing tables are present (the `Tables` record)
and `convert_all_to_english` returns a document, that document is exactly
five sections in the fixed order Customers, Suppliers, Products, Orders,
Order Line Items — each a `## <Heading>` line followed by the table's
sentences joined with blank lines — separated by the `---` horizontal
rule; and a table with zero rows still contributes its header, with an
empty body (last five conjuncts). -/
theorem c5_render_all_sections (t : Tables) (doc : String)
    (h : convert_all_to_english t = Except.ok doc) :
    (doc = "## Customers\n\n" ++ pyJoin "\n\n" (t.customers.map convert_customer_to_english)
      ++ "\n\n---\n\n"
      ++ ("## Suppliers\n\n" ++ pyJoin "\n\n" (t.suppliers.map convert_supplier_to_english))
      ++ "\n\n---\n\n"
      ++ ("## Products\n\n" ++ pyJoin "\n\n" (t.products.map convert_product_to_english))
      ++ "\n\n---\n\n"
      ++ ("## Orders\n\n" ++ pyJoin "\n\n"
        ((t.orders.mapM (fun r => convert_order_to_english r t.customers)).toOption.getD []))
      ++ "\n\n---\n\n"
      ++ ("## Order Line Items\n\n" ++ pyJoin "\n\n"
        ((t.order_items.mapM
          (fun r => convert_order_item_to_english r t.products t.orders t.customers)).toOption.getD [])))
    ∧ (t.customers = [] → pyJoin "\n\n" (t.customers.map convert_customer_to_english) = "")
    ∧ (t.suppliers = [] → pyJoin "\n\n" (t.suppliers.map convert_supplier_to_english) = "")
    ∧ (t.products = [] → pyJoin "\n\n" (t.products.map convert_product_to_english) = "")
    ∧ (t.orders = [] → pyJoin "\n\n"
        ((t.orders.mapM (fun r => convert_order_to_english r t.customers)).toOption.getD []) = "")
    ∧ (t.order_items = [] → pyJoin "\n\n"
        ((t.order_items.mapM
          (fun r => convert_order_item_to_english r t.products t.orders t.customers)).toOption.getD [])
          = "") := by
  unfold convert_all_to_english at h
  cases hsec : sections_of t with
  | error e =>
    rw [hsec] at h
    exact absurd h (by simp [Except.map])
  | ok secs =>
    rw [hsec] at h
    simp only [Except.map, Except.ok.injEq] at h
    unfold sections_of at hsec
    cases ho : t.orders.mapM (fun r => convert_order_to_english r t.customers) with
    | error e =>
      rw [ho, except_error_bind] at hsec
      cases hsec
    | ok os =>
      rw [ho, except_ok_bind] at hsec
      cases hi : t.order_items.mapM
          (fun r => convert_order_item_to_english r t.products t.orders t.customers) with
      | error e =>
        rw [hi, except_error_bind] at hsec
        cases hsec
      | ok is =>
        rw [hi, except_ok_bind] at hsec
        simp only [Except.ok.injEq] at hsec
        subst hsec
        subst h
        refine ⟨?_, ?_, ?_, ?_, ?_, ?_⟩
        · simp only [Except.toOption, Option.getD_some]
          simp [pyJoin, String.append_assoc]
        · intro h0; rw [h0]; rfl
        · intro h0; rw [h0]; rfl
        · intro h0; rw [h0]; rfl
        · intro h0
          rw [h0] at ho
          simp only [List.mapM_nil, pure, Except.pure, Except.ok.injEq] at ho
          subst ho
          rfl
        · intro h0
          rw [h0] at hi
          simp only [List.mapM_nil, pure, Except.pure, Except.ok.injEq] at hi
          subst hi
          rfl

/-- C5, witness: all five tables present with zero rows each — the
document is exactly the five headers in order with empty bodies, separated
by the horizontal rule. -/
theorem c5_render_all_sections_witness :
    "## Customers\n\n\n\n---\n\n## Suppliers\n\n\n\n---\n\n## Products\n\n\n\n---\n\n## Orders\n\n\n\n---\n\n## Order Line Items\n\n"
      = "## Customers\n\n"
        ++ pyJoin "\n\n" (empty_tables.customers.map convert_customer_to_english)
      ++ "\n\n---\n\n"
      ++ ("## Suppliers\n\n"
        ++ pyJoin "\n\n" (empty_tables.suppliers.map convert_supplier_to_english))
      ++ "\n\n---\n\n"
      ++ ("## Products\n\n"
        ++ pyJoin "\n\n" (empty_tables.products.map convert_product_to_english))
      ++ "\n\n---\n\n"
      ++ ("## Orders\n\n" ++ pyJoin "\n\n"
        ((empty_tables.orders.mapM
          (fun r => convert_order_to_english r empty_tables.customers)).toOption.getD []))
      ++ "\n\n---\n\n"
      ++ ("## Order Line Items\n\n" ++ pyJoin "\n\n"
        ((empty_tables.order_items.mapM
          (fun r => convert_order_item_to_english r empty_tables.products empty_tables.orders
            empty_tables.customers)).toOption.getD [])) :=
  (c5_render_all_sections empty_tables
    "## Customers\n\n\n\n---\n\n## Suppliers\n\n\n\n---\n\n## Products\n\n\n\n---\n\n## Orders\n\n\n\n---\n\n## Order Line Items\n\n"
    rfl).1

set_option maxRecDepth 100000 in
/-- C6, counterexample.  Customers with segment encounter order Basic (one
row) then Premium (two rows): the claim (encounter order) demands the
fragment "Basic: 1, Premium: 2", but the summary renders
"Premium: 2, Basic: 1" — `value_counts()` sorts by count, descending, not
by encounter order. -/
theorem c6_counterexample :
    strContains ((get_summary_statistics demo_tables).toOption.getD "")
        "Premium: 2, Basic: 1" = true
    ∧ strContains ((get_summary_statistics demo_tables).toOption.getD "")
        "Basic: 1, Premium: 2" = false := by
  constructor <;> rfl

/-- C6, amended.  For every backing dataset, whenever the summary renderer
returns a document it is `summary_text` — which reports the customer
segment distribution as `segment: count` pairs rendered from
`value_counts` — and those pairs are listed in descending order of count
(`countGe`-sorted), not in encounter order. -/
theorem c6_segment_order_amended (t : Tables) :
    (∀ out, get_summary_statistics t = Except.ok out →
      out = summary_text t ((top_product_name t).toOption.getD ""))
    ∧ List.Sorted countGe (value_counts (t.customers.map CustomerRow.customer_segment)) := by
  constructor
  · intro out h
    unfold get_summary_statistics at h
    cases htp : top_product_name t with
    | error e =>
      rw [htp, except_error_bind] at h
      cases h
    | ok top =>
      rw [htp, except_ok_bind] at h
      simp only [Except.ok.injEq] at h
      subst h
      simp [Except.toOption]
  · unfold value_counts
    exact List.sorted_insertionSort countGe _

set_option maxRecDepth 100000 in
/-- C6, witness: the demo dataset's summary evaluates to the concrete
document (with "Premium: 2, Basic: 1" in the segments slot) and the tally
is count-descending sorted. -/
theorem c6_segment_order_amended_witness :
    "\n## Data Summary\n\nThe e-commerce database contains:\n- 3 customers across 2 states\n- 1 products from 1 suppliers\n- 1 orders with 1 line items\n- Total revenue: $60.00\n- Average order value: $60.00\n\nCustomer segments: Premium: 2, Basic: 1\n\nThe best-selling product by revenue is \x22Gizmo\x22.\n"
      = summary_text demo_tables ((top_product_name demo_tables).toOption.getD "")
    ∧ List.Sorted countGe
        (value_counts (demo_tables.customers.map CustomerRow.customer_segment)) := by
  have h := c6_segment_order_amended demo_tables
  exact ⟨h.1 _ rfl, h.2⟩

/-- C7.  For every store whose table names are distinct, the JSON value
serialized by `get_all_data_as_json` (and recovered by parsing the emitted
string) is an object whose field names are a permutation of — i.e. the
same set as — the table names `load_all_tables` returns, and whose value
under every table's name is an array with exactly as many row objects as
that table has rows. -/
theorem c7_json_roundtrip (s : Store)
    (hnd : ((load_all_tables s).map Prod.fst).Nodup) :
    ((json_fields s).map Prod.fst).Perm ((load_all_tables s).map Prod.fst)
    ∧ get_all_data_as_json_value s = Json.obj (json_fields s)
    ∧ ∀ p ∈ load_all_tables s,
        (json_fields s).lookup p.1 = some (Json.arr (p.2.map rowToJson))
        ∧ (p.2.map rowToJson).length = p.2.length := by
  have hperm : (sortedByName (load_all_tables s)).Perm (load_all_tables s) :=
    List.perm_insertionSort byName _
  have hmapfst : (json_fields s).map Prod.fst
      = (sortedByName (load_all_tables s)).map Prod.fst := by
    unfold json_fields
    rw [List.map_map]
    rfl
  refine ⟨?_, rfl, ?_⟩
  · rw [hmapfst]
    exact hperm.map Prod.fst
  · intro p hp
    have hnd2 : ((json_fields s).map Prod.fst).Nodup := by
      rw [hmapfst]
      exact ((hperm.map Prod.fst).nodup_iff).mpr hnd
    have hmem : (p.1, Json.arr (p.2.map rowToJson)) ∈ json_fields s := by
      unfold json_fields
      exact List.mem_map.mpr ⟨p, hperm.mem_iff.mpr hp, rfl⟩
    exact ⟨lookup_eq_of_mem_of_nodup _ _ _ hnd2 hmem, by simp⟩

/-- C7, witness: a two-table store — the serialized object's field names
are a permutation of the loaded table names, and each table's array holds
exactly its row count (2 rows for "a", 1 for "b"). -/
theorem c7_json_roundtrip_witness :
    ((json_fields two_table_store).map Prod.fst).Perm
      ((load_all_tables two_table_store).map Prod.fst)
    ∧ (json_fields two_table_store).lookup "a"
        = some (Json.arr [Json.obj [("y", Json.int 2)], Json.obj [("y", Json.int 3)]])
    ∧ (json_fields two_table_store).lookup "b"
        = some (Json.arr [Json.obj [("x", Json.int 1)]]) := by
  have h := c7_json_roundtrip two_table_store (by decide)
  refine ⟨h.1, ?_, ?_⟩
  · exact (h.2.2 ("a", [[("y", GVal.int 2)], [("y", GVal.int 3)]])
      (by simp [load_all_tables, two_table_store])).1
  · exact (h.2.2 ("b", [[("x", GVal.int 1)]])
      (by simp [load_all_tables, two_table_store])).1
